import Mathlib

/-!
Verification of the expression AST core (`crates/ast/src/ast/expr.rs`):
operator enumerations (`BinOpKind`, `UnOpKind`) with their classification
queries, the expression node with its construction helpers, call-argument
shapes and indexing shapes.  Each Rust item is embedded as a Lean
definition of the same name; the external collaborator types from
`sulk_interface` (`Span`, `Ident`) and the sibling modules (`Lit`, `Ty`,
`SubDenomination`) are modelled minimally as value types carrying the
fields this module reads.
-/

namespace Solar

/-- Modelled from the spec: `Span` is an opaque source-location range from
`sulk_interface`, carried for diagnostics and never interpreted here.  We
model it as a pair of byte offsets. -/
structure Span where
  lo : Nat
  hi : Nat
deriving Repr, DecidableEq

/-- Modelled from the spec: `Ident` is an interned name paired with its
span, from `sulk_interface`. -/
structure Ident where
  name : String
  span : Span
deriving Repr, DecidableEq

/-- Modelled from the spec: `Ty` is the (opaque here) type-syntax tree of
the sibling module; this module only reads its `span` field. -/
structure Ty where
  span : Span
deriving Repr, DecidableEq

/-- Modelled from the spec: `Lit` is an opaque literal value with its own
internal encoding. -/
structure Lit where
  text : String
deriving Repr, DecidableEq

/-- Modelled from the spec: `SubDenomination` is a unit-suffix tag
(time/ether units) attached to numeric literals. -/
inductive SubDenomination : Type where
  | Wei | Gwei | Ether
  | Seconds | Minutes | Hours | Days | Weeks | Years
deriving Repr, DecidableEq

/-- A kind of binary operation (`enum BinOpKind`), in source order. -/
inductive BinOpKind : Type where
  | Lt
  | Le
  | Gt
  | Ge
  | Eq
  | Ne
  | Or
  | And
  | Shr
  | Shl
  | Sar
  | BitAnd
  | BitOr
  | BitXor
  | Add
  | Sub
  | Pow
  | Mul
  | Div
  | Rem
deriving Repr, DecidableEq, Fintype

/-- A binary operation paired with its source span (`struct BinOp`). -/
structure BinOp where
  span : Span
  kind : BinOpKind
deriving Repr, DecidableEq

/-- `BinOpKind::to_str`: the string representation of the operator. -/
def BinOpKind.to_str : BinOpKind → String
  | .Lt => "<"
  | .Le => "<="
  | .Gt => ">"
  | .Ge => ">="
  | .Eq => "=="
  | .Ne => "!="
  | .Or => "||"
  | .And => "&&"
  | .Sar => ">>>"
  | .Shr => ">>"
  | .Shl => "<<"
  | .BitAnd => "&"
  | .BitOr => "|"
  | .BitXor => "^"
  | .Add => "+"
  | .Sub => "-"
  | .Pow => "**"
  | .Mul => "*"
  | .Div => "/"
  | .Rem => "%"

/-- `BinOpKind::assignable`: `true` if the operator is able to be used in
an assignment. -/
def BinOpKind.assignable : BinOpKind → Bool
  | .BitOr
  | .BitXor
  | .BitAnd
  | .Shl
  | .Shr
  | .Sar
  | .Add
  | .Sub
  | .Mul
  | .Div
  | .Rem => true
  | .Lt
  | .Le
  | .Gt
  | .Ge
  | .Eq
  | .Ne
  | .Or
  | .And
  | .Pow => false

/-- `impl fmt::Display for BinOp`: formatting writes `self.kind.to_str()`. -/
def BinOp.display (op : BinOp) : String :=
  BinOpKind.to_str op.kind

/-- A kind of unary operation (`enum UnOpKind`), in source order. -/
inductive UnOpKind : Type where
  | PreInc
  | PreDec
  | Not
  | Neg
  | BitNot
  | PostInc
  | PostDec
deriving Repr, DecidableEq, Fintype

/-- A unary operation paired with its source span (`struct UnOp`). -/
structure UnOp where
  span : Span
  kind : UnOpKind
deriving Repr, DecidableEq

/-- `UnOpKind::to_str`: the string representation of the operator. -/
def UnOpKind.to_str : UnOpKind → String
  | .PreInc => "++"
  | .PreDec => "--"
  | .Not => "!"
  | .Neg => "-"
  | .BitNot => "~"
  | .PostInc => "++"
  | .PostDec => "--"

/-- `UnOpKind::is_prefix`: `true` if the operator is a prefix operator. -/
def UnOpKind.is_prefix : UnOpKind → Bool
  | .PreInc | .PreDec | .Not | .Neg | .BitNot => true
  | .PostInc | .PostDec => false

/-- `UnOpKind::is_postfix`: `true` if the operator is a postfix operator,
defined in the source as `!self.is_prefix()`. -/
def UnOpKind.is_postfix (k : UnOpKind) : Bool :=
  ! UnOpKind.is_prefix k

/-- `impl fmt::Display for UnOp`: formatting writes `self.kind.to_str()`. -/
def UnOp.display (op : UnOp) : String :=
  UnOpKind.to_str op.kind

mutual

/-- An expression (`struct Expr`): a source span plus a kind. -/
inductive Expr : Type where
  | mk (span : Span) (kind : ExprKind)

/-- A kind of expression (`enum ExprKind`), in source order.  The Rust
variant `Type` is spelled `Type'` because `Type` is reserved in Lean. -/
inductive ExprKind : Type where
  | Array (elems : List Expr)
  | Assign (lhs : Expr) (op : Option BinOp) (rhs : Expr)
  | Binary (lhs : Expr) (op : BinOp) (rhs : Expr)
  | Call (callee : Expr) (args : CallArgs)
  | CallOptions (callee : Expr) (opts : List NamedArg)
  | Delete (operand : Expr)
  | Ident (ident : Ident)
  | Index (base : Expr) (ik : IndexKind)
  | Lit (lit : Lit) (denom : Option SubDenomination)
  | Member (base : Expr) (member : Ident)
  | New (ty : Ty)
  | Payable (args : CallArgs)
  | Ternary (cond : Expr) (thn : Expr) (els : Expr)
  | Tuple (elems : List (Option Expr))
  | TypeCall (ty : Ty)
  | Type' (ty : Ty)
  | Unary (op : UnOp) (operand : Expr)

/-- A list of function call arguments (`enum CallArgs`): either unnamed
positional arguments or named arguments, never mixed. -/
inductive CallArgs : Type where
  | Unnamed (args : List Expr)
  | Named (args : List NamedArg)

/-- A named argument `name: value` (`struct NamedArg`). -/
inductive NamedArg : Type where
  | mk (name : Ident) (value : Expr)

/-- A kind of square bracketed indexing expression (`enum IndexKind`):
a single optional index or a range with optional bounds. -/
inductive IndexKind : Type where
  | Index (index : Option Expr)
  | Range (lo : Option Expr) (hi : Option Expr)

end

/-- Field accessor for `Expr.span`. -/
def Expr.span : Expr → Span
  | .mk s _ => s

/-- Field accessor for `Expr.kind`. -/
def Expr.kind : Expr → ExprKind
  | .mk _ k => k

/-- `Expr::from_ident`: creates a new expression from an identifier. -/
def Expr.from_ident (ident : Ident) : Expr :=
  Expr.mk ident.span (ExprKind.Ident ident)

/-- `Expr::from_ty`: creates a new expression from a type. -/
def Expr.from_ty (ty : Ty) : Expr :=
  Expr.mk ty.span (ExprKind.Type' ty)

/-- `impl Default for CallArgs`: `default()` returns `Unnamed(Vec::new())`. -/
def CallArgs.default : CallArgs :=
  CallArgs.Unnamed []

/-- `CallArgs::empty`: creates a new empty list of unnamed arguments. -/
def CallArgs.empty : CallArgs :=
  CallArgs.Unnamed []

/-- Claim C1: `assignable()` returns `true` exactly for the eleven
operators BitOr, BitXor, BitAnd, Shl, Shr, Sar, Add, Sub, Mul, Div, Rem,
and `false` for every operator among Lt, Le, Gt, Ge, Eq, Ne, Or, And,
Pow. -/
theorem assignable_partition :
    ∀ k : BinOpKind,
      ( BinOpKind.assignable k = true ↔
        (k = .BitOr ∨ k = .BitXor ∨ k = .BitAnd ∨ k = .Shl ∨ k = .Shr ∨
         k = .Sar ∨ k = .Add ∨ k = .Sub ∨ k = .Mul ∨ k = .Div ∨
         k = .Rem)) ∧
      ( BinOpKind.assignable k = false ↔
        (k = .Lt ∨ k = .Le ∨ k = .Gt ∨ k = .Ge ∨ k = .Eq ∨ k = .Ne ∨
         k = .Or ∨ k = .And ∨ k = .Pow)) := by
  decide

/-- Claim C2 (amended): `BinOpKind` has exactly 20 variants, not 19. -/
theorem binOpKind_card_eq_20 : Fintype.card BinOpKind = 20 := by
  decide

/-- Claim C2 counterexample: the number of distinct `BinOpKind` values is
not 19. -/
theorem binOpKind_card_ne_19 : ¬ Fintype.card BinOpKind = 19 := by
  decide

/-- Claim C3: `to_str()` is non-empty on every `BinOpKind`, injective
over all values, and maps `Sar` to `">>>"` and `Pow` to `"**"`. -/
theorem binOpKind_to_str_nonempty_injective :
    (∀ k : BinOpKind, BinOpKind.to_str k ≠ "") ∧
    (∀ k1 k2 : BinOpKind,
      BinOpKind.to_str k1 = BinOpKind.to_str k2 → k1 = k2) ∧
    BinOpKind.to_str .Sar = ">>>" ∧ BinOpKind.to_str .Pow = "**" := by
  decide

/-- Witness for claim C3: the injectivity implication applied at the
concrete pair `Shr`, `Shr`, whose spellings agree. -/
theorem binOpKind_to_str_nonempty_injective_witness :
    BinOpKind.Shr = BinOpKind.Shr :=
  binOpKind_to_str_nonempty_injective.2.1 .Shr .Shr (by decide)

/-- Claim C4: for every `UnOpKind`, exactly one of `is_prefix()` and
`is_postfix()` is true, and `is_postfix()` is the boolean negation of
`is_prefix()`. -/
theorem unOpKind_prefix_postfix_partition :
    ∀ k : UnOpKind,
      UnOpKind.is_postfix k = (! UnOpKind.is_prefix k) ∧
      ( UnOpKind.is_prefix k && UnOpKind.is_postfix k) = false ∧
      ( UnOpKind.is_prefix k || UnOpKind.is_postfix k) = true := by
  decide

/-- Claim C5: `PreInc` and `PostInc` both print as `"++"`, and `PreDec`
and `PostDec` both print as `"--"`. -/
theorem unOpKind_to_str_collisions :
    UnOpKind.to_str .PreInc = "++" ∧ UnOpKind.to_str .PostInc = "++" ∧
    UnOpKind.to_str .PreDec = "--" ∧ UnOpKind.to_str .PostDec = "--" := by
  decide

/-- Claim C6: `CallArgs::empty()` and `CallArgs::default()` are
structurally equal, and both are the unnamed form with an empty argument
list. -/
theorem callArgs_empty_eq_default :
    CallArgs.empty = CallArgs.default ∧
    CallArgs.empty = CallArgs.Unnamed [] ∧
    CallArgs.default = CallArgs.Unnamed [] :=
  ⟨rfl, rfl, rfl⟩

/-- Claim C7: `Expr::from_ident(id)` has kind `Ident(id)` and span
`id.span`; `Expr::from_ty(ty)` has kind `Type(ty)` and span `ty.span`. -/
theorem expr_from_ident_from_ty_span :
    ∀ (i : Ident) (t : Ty),
      Expr.kind (Expr.from_ident i) = ExprKind.Ident i ∧
      Expr.span (Expr.from_ident i) = i.span ∧
      Expr.kind (Expr.from_ty t) = ExprKind.Type' t ∧
      Expr.span (Expr.from_ty t) = t.span := by
  intro i t
  exact ⟨rfl, rfl, rfl, rfl⟩

/-- Claim C8: `assignable()`, `is_prefix()`, `is_postfix()` and
`to_str()` are pure functions of the operator tag alone: two
applications to the same value (and any application to an equal value)
yield identical results. -/
theorem operator_queries_deterministic :
    ∀ (b b2 : BinOpKind) (u u2 : UnOpKind),
      BinOpKind.assignable b = BinOpKind.assignable b ∧
      BinOpKind.to_str b = BinOpKind.to_str b ∧
      UnOpKind.is_prefix u = UnOpKind.is_prefix u ∧
      UnOpKind.is_postfix u = UnOpKind.is_postfix u ∧
      UnOpKind.to_str u = UnOpKind.to_str u ∧
      (b = b2 →
        BinOpKind.assignable b = BinOpKind.assignable b2 ∧
        BinOpKind.to_str b = BinOpKind.to_str b2) ∧
      (u = u2 →
        UnOpKind.is_prefix u = UnOpKind.is_prefix u2 ∧
        UnOpKind.is_postfix u = UnOpKind.is_postfix u2 ∧
        UnOpKind.to_str u = UnOpKind.to_str u2) := by
  intro b b2 u u2
  refine ⟨rfl, rfl, rfl, rfl, rfl, ?_, ?_⟩
  · intro h
    exact ⟨by rw [h], by rw [h]⟩
  · intro h
    exact ⟨by rw [h], by rw [h], by rw [h]⟩

/-- Witness for claim C8: the congruence implications applied at the
concrete equal pairs `Add = Add` and `Not = Not`. -/
theorem operator_queries_deterministic_witness :
    ( BinOpKind.assignable .Add = BinOpKind.assignable .Add ∧
      BinOpKind.to_str .Add = BinOpKind.to_str .Add) ∧
    ( UnOpKind.is_prefix .Not = UnOpKind.is_prefix .Not ∧
      UnOpKind.is_postfix .Not = UnOpKind.is_postfix .Not ∧
      UnOpKind.to_str .Not = UnOpKind.to_str .Not) :=
  ⟨(operator_queries_deterministic .Add .Add .Not .Not).2.2.2.2.2.1 rfl,
   (operator_queries_deterministic .Add .Add .Not .Not).2.2.2.2.2.2 rfl⟩

/-- Claim C9: `is_prefix()` is true exactly on PreInc, PreDec, Not, Neg,
BitNot and false exactly on PostInc, PostDec. -/
theorem unOpKind_is_prefix_membership :
    ∀ k : UnOpKind,
      ( UnOpKind.is_prefix k = true ↔
        (k = .PreInc ∨ k = .PreDec ∨ k = .Not ∨ k = .Neg ∨
         k = .BitNot)) ∧
      ( UnOpKind.is_prefix k = false ↔
        (k = .PostInc ∨ k = .PostDec)) := by
  decide

/-- Claim C10: the `Display` output of `BinOp` and `UnOp` equals
`to_str()` of the `kind` field, and hence depends only on the kind, not
on the span. -/
theorem display_eq_to_str_of_kind :
    ∀ (b b2 : BinOp) (u u2 : UnOp),
      BinOp.display b = BinOpKind.to_str b.kind ∧
      UnOp.display u = UnOpKind.to_str u.kind ∧
      (b.kind = b2.kind → BinOp.display b = BinOp.display b2) ∧
      (u.kind = u2.kind → UnOp.display u = UnOp.display u2) := by
  intro b b2 u u2
  refine ⟨rfl, rfl, ?_, ?_⟩
  · intro h
    unfold BinOp.display
    rw [h]
  · intro h
    unfold UnOp.display
    rw [h]

/-- Witness for claim C10: two `Add` operators with different spans, and
two `Neg` operators with different spans, display identically. -/
theorem display_eq_to_str_of_kind_witness :
    BinOp.display ⟨⟨0, 1⟩, .Add⟩ = BinOp.display ⟨⟨5, 9⟩, .Add⟩ ∧
    UnOp.display ⟨⟨0, 1⟩, .Neg⟩ = UnOp.display ⟨⟨7, 8⟩, .Neg⟩ :=
  ⟨(display_eq_to_str_of_kind ⟨⟨0, 1⟩, .Add⟩ ⟨⟨5, 9⟩, .Add⟩
      ⟨⟨0, 1⟩, .Neg⟩ ⟨⟨7, 8⟩, .Neg⟩).2.2.1 rfl,
   (display_eq_to_str_of_kind ⟨⟨0, 1⟩, .Add⟩ ⟨⟨5, 9⟩, .Add⟩
      ⟨⟨0, 1⟩, .Neg⟩ ⟨⟨7, 8⟩, .Neg⟩).2.2.2 rfl⟩

end Solar
